import Mathlib

/-!
Shallow embedding of the core of the `leo` offline system: the document data
model (`offline/domain/document.py`), the instruct-dataset split
(`offline/domain/instruct_data.py`), the enrichment agents
(`offline/application/agents/quality.py`, `summarization.py`), the dataset
generator (`offline/application/dataset/generators.py`) and the crawler
(`offline/application/crawlers/crawl4ai.py`), together with theorems settling
the specification claims.

Modelling conventions:
- Python floats are modelled as exact rationals (`ℚ`); `int(x)` is truncation
  toward zero (`pyTrunc`); Python list slicing (including negative indices and
  clamping) is `pySlice`.
- External effects (LLM completions, HTTP fetches, the PRNG of `random`) are
  modelled as explicit oracle parameters; the agents' batch methods are
  embedded sequentially since the spec guarantees no ordering across items.
- In-place mutation of a `Document` is embedded as functional update; Python's
  `copy.deepcopy` is the identity on such pure values.
-/

/-- Metadata of a document (`DocumentMetaData` in `offline/domain/document.py`).
The schema-free `properties` dict is modelled as an association list. -/
structure DocumentMetaData where
  id : String
  url : String
  title : String
  properties : List (String × String)
deriving DecidableEq, Repr

/-- A document (`Document` in `offline/domain/document.py`). Scores are
rationals standing for Python floats. -/
structure Document where
  id : String
  metadata : DocumentMetaData
  parent_metadata : Option DocumentMetaData
  content : String
  content_quality_score : Option ℚ
  summary : Option String
  child_urls : List String
deriving DecidableEq, Repr

/-- Method `Document.add_summary`: sets the `summary` field, returns the document. -/
def Document.add_summary (document : Document) (summary : String) : Document :=
  { document with summary := some summary }

/-- Method `Document.add_quality_score`: sets `content_quality_score`, returns the
document. -/
def Document.add_quality_score (document : Document) (score : ℚ) : Document :=
  { document with content_quality_score := some score }

/-- Embedding of `HeuristicQualityAgent.__score_document` (`agents/quality.py`): scores a
document by the ratio of child-URL text length to content length. -/
def score_document (document : Document) : Document :=
  if document.content.length = 0 then
    document.add_quality_score 0
  else
    let url_based_content : ℕ := (document.child_urls.map String.length).sum
    let url_content_ratio : ℚ :=
      (url_based_content : ℚ) / (document.content.length : ℚ)
    if url_content_ratio ≥ 7/10 then
      document.add_quality_score 0
    else if url_content_ratio ≥ 5/10 then
      document.add_quality_score (2/10)
    else
      document

/-- The url-content ratio computed by `__score_document`, named for use in
theorem statements. -/
def url_content_ratio (document : Document) : ℚ :=
  ((document.child_urls.map String.length).sum : ℚ) / (document.content.length : ℚ)

/-- Outcome of one summarization LLM call (`litellm.acompletion` in
`agents/summarization.py`), as seen by `SummarizationAgent.__summarize`:
an exception, a reply with no choices, or a reply with message content. -/
inductive SumOutcome where
  | exn : SumOutcome
  | noChoices : SumOutcome
  | reply : String → SumOutcome
deriving DecidableEq

/-- Outcome of one quality-scoring LLM call as seen by
`QualityScoreAgent.__get_quality_score` (`agents/quality.py`): an exception, a
reply with no choices, or a reply whose content `_parse_model_output` parsed to
`some score` (`none` when parsing failed or the content was falsy). -/
inductive ScoreOutcome where
  | exn : ScoreOutcome
  | noChoices : ScoreOutcome
  | reply : Option ℚ → ScoreOutcome
deriving DecidableEq

/-- Embedding of `SummarizationAgent.__summarize` on one document, with the LLM call's
outcome supplied by the oracle `o`. In mock mode a fixed placeholder summary is
assigned; an exception or an empty choices list leaves the document unchanged. -/
def summarize (mock : Bool) (o : SumOutcome) (document : Document) : Document :=
  if mock then document.add_summary ("This is a mock summary")
  else
    match o with
    | .exn => document
    | .noChoices => document
    | .reply content => document.add_summary content

/-- Embedding of `QualityScoreAgent.__get_quality_score` on one document, with the LLM
call's parsed outcome supplied by the oracle `o`. In mock mode the fixed score
0.5 is assigned; an exception, an empty choices list or an unparseable reply
leaves the document unchanged. -/
def get_quality_score (mock : Bool) (o : ScoreOutcome) (document : Document) :
    Document :=
  if mock then document.add_quality_score (5/10)
  else
    match o with
    | .exn => document
    | .noChoices => document
    | .reply none => document
    | .reply (some score) => document.add_quality_score score

/-- Embedding of `SummarizationAgent.__summarize_batch`: phase 1 over all documents, then
one retry phase over the documents still lacking a summary, whose results are
appended wholesale. The per-call outcomes of the two phases are the oracles
`o1` and `o2`. -/
def summarize_batch (mock : Bool) (o1 o2 : Document → SumOutcome)
    (documents : List Document) : List Document :=
  let summarized := documents.map (fun d => summarize mock (o1 d) d)
  let documents_with_summaries := summarized.filter (fun d => d.summary.isSome)
  let documents_without_summaries := summarized.filter (fun d => d.summary.isNone)
  if documents_without_summaries.isEmpty then
    documents_with_summaries
  else
    documents_with_summaries ++
      documents_without_summaries.map (fun d => summarize mock (o2 d) d)

/-- Embedding of `QualityScoreAgent.__get_quality_score_batch`: phase 1 over all documents,
then one retry phase over the documents still lacking a score, whose results
are appended wholesale. -/
def get_quality_score_batch (mock : Bool) (o1 o2 : Document → ScoreOutcome)
    (documents : List Document) : List Document :=
  let scored := documents.map (fun d => get_quality_score mock (o1 d) d)
  let documents_with_scores :=
    scored.filter (fun d => d.content_quality_score.isSome)
  let documents_without_scores :=
    scored.filter (fun d => d.content_quality_score.isNone)
  if documents_without_scores.isEmpty then
    documents_with_scores
  else
    documents_with_scores ++
      documents_without_scores.map (fun d => get_quality_score mock (o2 d) d)

/-- Embedding of `SummarizationDatasetGenerator.filter_documents`: applies each filter in
order over the full surviving list. -/
def filter_documents (filters : List (Document → Bool))
    (documents : List Document) : List Document :=
  filters.foldl (fun docs f => docs.filter f) documents

/-- The two `pre_generation_filters` built in
`SummarizationDatasetGenerator.__init__`: content strictly longer than
`min_document_length`, and quality score unset or at least
`min_quality_score`. -/
def pre_generation_filters (min_document_length : ℕ) (min_quality_score : ℚ) :
    List (Document → Bool) :=
  [ fun document => decide (document.content.length > min_document_length),
    fun document =>
      match document.content_quality_score with
      | none => true
      | some score => decide (score ≥ min_quality_score) ]

/-- Embedding of `SummarizationDatasetGenerator.__augmented_summarization_loop`: `loops`
passes; pass `i` summarizes a deep copy of the filtered documents at
temperature `i * 0.5 / loops` and accumulates the results that carry a
summary. `agent_batch t ds` stands for `summarization_agent(ds, temperature=t)`. -/
def augmented_summarization_loop (agent_batch : ℚ → List Document → List Document)
    (documents : List Document) (loops : ℕ) : List Document :=
  (List.range loops).foldl
    (fun (augmented_documents : List Document) (i : ℕ) =>
      let temperature : ℚ := (i : ℚ) * (5/10) / (loops : ℚ)
      let copied_documents := documents
      let summarized_documents := agent_batch temperature copied_documents
      augmented_documents ++
        summarized_documents.filter (fun d => d.summary.isSome))
    []

/-- Result of one `crawler.arun(url)` call in `crawlers/crawl4ai.py`, as
inspected by `Crawl4AICrawler.__crawl_url`: success flag, optional rendered
markdown, internal and external link hrefs, and the optional metadata dict. -/
structure CrawlResult where
  success : Bool
  markdown : Option String
  links_internal : List String
  links_external : List String
  metadata : Option (List (String × String))
deriving DecidableEq

/-- Title extraction in `__crawl_url`: `result.metadata.pop("title", "") or ""`
(a missing or empty title yields the empty string). -/
def crawl_title (metadata : Option (List (String × String))) : String :=
  match metadata with
  | none => ""
  | some m => ((m.lookup ("title")).getD (""))

/-- Properties kept in `__crawl_url`: the metadata dict after popping
`"title"`, or the empty dict when metadata is falsy. -/
def crawl_properties (metadata : Option (List (String × String))) :
    List (String × String) :=
  match metadata with
  | none => []
  | some m => m.filter (fun kv => kv.1 ≠ "title")

/-- Embedding of `Crawl4AICrawler.__crawl_url`: fetch one URL of a parent page. The fetch
oracle returns `none` for a falsy result; an unsuccessful result or absent
markdown yields no document; otherwise a brand-new document is built with the
supplied fresh id, `parent_metadata` set to the parent page's metadata, and
child urls the internal plus external links. -/
def crawl_url (fetch : String → Option CrawlResult) (new_id : String)
    (page : Document) (url : String) : Option Document :=
  match fetch url with
  | none => none
  | some result =>
    if !result.success then none
    else
      match result.markdown with
      | none => none
      | some md =>
        some
          { id := new_id
            metadata :=
              { id := new_id
                url := url
                title := crawl_title result.metadata
                properties := crawl_properties result.metadata }
            parent_metadata := some page.metadata
            content := md
            content_quality_score := none
            summary := none
            child_urls := result.links_internal ++ result.links_external }

/-- The multiset of URLs fetched by `Crawl4AICrawler.__crawl_batch`: one
`arun` call per entry of each page's `child_urls` list. -/
def crawl_fetch_log (pages : List Document) : List String :=
  pages.flatMap (fun page => page.child_urls)

/-- Embedding of `Crawl4AICrawler.__crawl_batch`: one `__crawl_url` task per (page, child
url) pair; `ids` supplies the fresh random ids by task index; falsy (failed)
results are filtered out. -/
def crawl_batch (fetch : String → Option CrawlResult) (ids : ℕ → String)
    (pages : List Document) : List Document :=
  let jobs := pages.flatMap (fun page => page.child_urls.map (fun url => (page, url)))
  (jobs.enum.map (fun job => crawl_url fetch (ids job.1) job.2.1 job.2.2)).reduceOption

/-- Embedding of `Document.__eq__`: two documents compare equal exactly when their ids are
equal; no other field is inspected. -/
def document_eq (a b : Document) : Bool :=
  a.id == b.id

/-- Deduplication by `list(set(...))` in `steps/etl/crawl.py`, with Python's
set semantics over `Document.__eq__`/`__hash__`: the first occurrence of each
equality class is kept (set iteration order is not modelled; the claims are
order-independent). -/
def dedup_documents (documents : List Document) : List Document :=
  documents.foldl
    (fun acc d => if acc.any (fun x => document_eq x d) then acc else acc ++ [d])
    []

/-- The union built by the `crawl` step (`steps/etl/crawl.py`): original
documents extended with the crawled child pages, deduplicated through a set. -/
def crawl_union (documents child_pages : List Document) : List Document :=
  dedup_documents (documents ++ child_pages)

/-- One instruction/answer pair (`InstructDatasetSample` in
`offline/domain/instruct_data.py`). -/
structure InstructDatasetSample where
  instruction : String
  answer : String
deriving DecidableEq, Repr

/-- The split dataset (`InstructDataset` in `offline/domain/instruct_data.py`). -/
structure InstructDataset where
  train : List InstructDatasetSample
  validation : List InstructDatasetSample
  test : List InstructDatasetSample
  val_split_ratio : ℚ
  test_split_ratio : ℚ
  seed : Option ℤ
deriving DecidableEq, Repr

/-- Python `int(x)` on a float: truncation toward zero. -/
def pyTrunc (q : ℚ) : ℤ :=
  if q < 0 then -(Int.floor (-q)) else Int.floor q

/-- Python slice-index normalization for a list of length `n`: negative
indices count from the end, then the index is clamped into `[0, n]`. -/
def pyIdx (n : ℕ) (i : ℤ) : ℕ :=
  min ((if i < 0 then (n : ℤ) + i else i).toNat) n

/-- Python slice `xs[a:b]` with full negative-index and clamping semantics. -/
def pySlice {α : Type} (xs : List α) (a b : ℤ) : List α :=
  (xs.take (pyIdx xs.length b)).drop (pyIdx xs.length a)

/-- The generator state used for the shuffle inside `from_samples`: Python's
global `random` module state `g`, reset by `random.seed(s)` (modelled by
`seedFn`) when an explicit seed is given. -/
def init_generator {G : Type} (seedFn : ℤ → G) (g : G) (seed : Option ℤ) : G :=
  match seed with
  | some s => seedFn s
  | none => g

/-- The three slices `shuffled[:int(n*(1-v-t))]`, `shuffled[int(n*(1-v-t)):
int(n*(1-t))]` and `shuffled[int(n*(1-t)):]` cut by `from_samples`. -/
def split_slices (shuffled : List InstructDatasetSample)
    (val_split_ratio test_split_ratio : ℚ) :
    List InstructDatasetSample × List InstructDatasetSample ×
      List InstructDatasetSample :=
  let n := shuffled.length
  let a := pyTrunc ((n : ℚ) * (1 - val_split_ratio - test_split_ratio))
  let b := pyTrunc ((n : ℚ) * (1 - test_split_ratio))
  (pySlice shuffled 0 a, pySlice shuffled a b, pySlice shuffled b (n : ℤ))

/-- Embedding of `InstructDataset.from_samples` (`offline/domain/instruct_data.py`).
The PRNG is abstracted: `G` is the state of Python's `random` module, `seedFn`
is `random.seed`, `shuffleFn` is `random.shuffle` (returning the permuted list
and the advanced state), `g` is the ambient state on entry. A failing
`assert` (an empty split) is modelled as `none`; the second component is the
generator state left behind. -/
def from_samples {G : Type} (seedFn : ℤ → G)
    (shuffleFn : G → List InstructDatasetSample → List InstructDatasetSample × G)
    (g : G) (samples : List InstructDatasetSample)
    (val_split_ratio test_split_ratio : ℚ) (seed : Option ℤ) :
    Option InstructDataset × G :=
  let shuffled_pair := shuffleFn (init_generator seedFn g seed) samples
  let shuffled_samples := shuffled_pair.1
  let slices := split_slices shuffled_samples val_split_ratio test_split_ratio
  let train_samples := slices.1
  let val_samples := slices.2.1
  let test_samples := slices.2.2
  let result : Option InstructDataset :=
    if train_samples ≠ [] ∧ val_samples ≠ [] ∧ test_samples ≠ [] then
      some
        { train := train_samples
          validation := val_samples
          test := test_samples
          val_split_ratio := val_split_ratio
          test_split_ratio := test_split_ratio
          seed := seed }
    else
      none
  (result, shuffled_pair.2)

/-! ## Concrete values used by counterexamples and witnesses -/

/-- A plain document with no summary and no quality score. -/
def doc_plain : Document :=
  { id := "doc-plain"
    metadata := { id := "m0", url := "http://example.org", title := "t", properties := [] }
    parent_metadata := none
    content := "some document content"
    content_quality_score := none
    summary := none
    child_urls := [] }

/-- A document whose content is exactly 50 characters long and whose quality
score is unset. -/
def doc_len50 : Document :=
  { doc_plain with
    content := "01234567890123456789012345678901234567890123456789" }

/-- A document with zero-length content. -/
def doc_empty_content : Document := { doc_plain with content := "" }

/-- A document with url-content ratio exactly 0.7. -/
def doc_ratio70 : Document :=
  { doc_plain with content := "0123456789", child_urls := ["1234567"] }

/-- A document with url-content ratio exactly 0.5. -/
def doc_ratio50 : Document :=
  { doc_plain with content := "0123456789", child_urls := ["12345"] }

/-- A document with url-content ratio 0.4. -/
def doc_ratio40 : Document :=
  { doc_plain with content := "0123456789", child_urls := ["1234"] }

/-- Numbered sample used to build concrete sample lists. -/
def sample_of (n : ℕ) : InstructDatasetSample :=
  { instruction := toString n, answer := toString n }

/-- Ten concrete samples, in a fixed order. -/
def samples_ten : List InstructDatasetSample := (List.range 10).map sample_of

/-- A concrete PRNG-state model: the state is an integer, `random.seed`
stores the seed. -/
def id_seed : ℤ → ℤ := fun s => s

/-- A concrete deterministic shuffle: the identity permutation, leaving the
generator state unchanged. -/
def id_shuffle : ℤ → List InstructDatasetSample → List InstructDatasetSample × ℤ :=
  fun g xs => (xs, g)

/-- The dataset produced from `samples_ten` with ratios 1/5, 1/5, seed 42 and
the identity shuffle. -/
def ds_ten : InstructDataset :=
  { train := (List.range 6).map sample_of
    validation := [sample_of 6, sample_of 7]
    test := [sample_of 8, sample_of 9]
    val_split_ratio := 1/5
    test_split_ratio := 1/5
    seed := some 42 }

/-- A successful fetch result with a title and one extra property. -/
def crawl_ok : CrawlResult :=
  { success := true
    markdown := some ("body")
    links_internal := ["i1"]
    links_external := ["e1"]
    metadata := some [("title", "T"), ("k", "v")] }

/-- A failed fetch result (`success = false`). -/
def crawl_fail : CrawlResult :=
  { success := false
    markdown := some ("m")
    links_internal := []
    links_external := []
    metadata := none }

/-- A page with three child URLs. -/
def page_three : Document :=
  { doc_plain with id := "page3", child_urls := ["u1", "u2", "u3"] }

/-- A page whose child-URL list contains the same URL twice. -/
def page_dup : Document :=
  { doc_plain with id := "pagedup", child_urls := ["u", "u"] }

/-- A fetch oracle that fails on `"u2"` and succeeds on every other URL. -/
def fetch_three : String → Option CrawlResult :=
  fun url => if url == "u2" then some crawl_fail else some crawl_ok

/-- A concrete id supply for crawled documents, indexed by task number. -/
def hex_ids : ℕ → String := fun i => toString i

/-- The document crawled from url `u1` of `page_three` (task index 0). -/
def crawled_u1 : Document :=
  { id := "0"
    metadata := { id := "0", url := "u1", title := "T", properties := [("k", "v")] }
    parent_metadata := some page_three.metadata
    content := "body"
    content_quality_score := none
    summary := none
    child_urls := ["i1", "e1"] }


/-! ## Theorems -/

/-- C2: the heuristic quality scorer assigns 0.0 to zero-length content;
otherwise, writing `r` for the ratio of summed child-URL lengths to content
length, it assigns 0.0 when `r ≥ 0.7`, assigns 0.2 when `0.5 ≤ r < 0.7`, and
returns the document unchanged (score left unset) when `r < 0.5`. -/
theorem score_document_spec (d : Document) :
    (d.content.length = 0 →
      (score_document d).content_quality_score = some 0) ∧
    (d.content.length ≠ 0 →
      (url_content_ratio d ≥ 7/10 →
        (score_document d).content_quality_score = some 0) ∧
      (5/10 ≤ url_content_ratio d ∧ url_content_ratio d < 7/10 →
        (score_document d).content_quality_score = some (2/10)) ∧
      (url_content_ratio d < 5/10 → score_document d = d)) := by
  unfold score_document url_content_ratio Document.add_quality_score
  refine ⟨fun h0 => ?_, fun hne => ⟨fun h7 => ?_, fun h5 => ?_, fun hlt => ?_⟩⟩
  · simp [h0]
  · simp only [url_content_ratio] at h7
    rw [if_neg hne, if_pos h7]
  · simp only [url_content_ratio] at h5
    rw [if_neg hne, if_neg (not_le.2 h5.2), if_pos h5.1]
  · simp only [url_content_ratio] at hlt
    rw [if_neg hne, if_neg (not_le.2 (lt_of_lt_of_le hlt (by norm_num))),
      if_neg (not_le.2 hlt)]

/-- Witness for C2: the four branches evaluated at concrete documents with
ratios 0 (empty content), 0.7, 0.5 and 0.4. -/
theorem score_document_spec_witness :
    (score_document doc_empty_content).content_quality_score = some 0 ∧
    (score_document doc_ratio70).content_quality_score = some 0 ∧
    (score_document doc_ratio50).content_quality_score = some (2/10) ∧
    score_document doc_ratio40 = doc_ratio40 :=
  ⟨(score_document_spec doc_empty_content).1 (by decide),
   ((score_document_spec doc_ratio70).2 (by decide)).1 (by
     unfold url_content_ratio doc_ratio70 doc_plain
     norm_num [show ("1234567" : String).length = 7 from rfl,
       show ("0123456789" : String).length = 10 from rfl]),
   ((score_document_spec doc_ratio50).2 (by decide)).2.1 (by
     unfold url_content_ratio doc_ratio50 doc_plain
     norm_num [show ("12345" : String).length = 5 from rfl,
       show ("0123456789" : String).length = 10 from rfl]),
   ((score_document_spec doc_ratio40).2 (by decide)).2.2 (by
     unfold url_content_ratio doc_ratio40 doc_plain
     norm_num [show ("1234" : String).length = 4 from rfl,
       show ("0123456789" : String).length = 10 from rfl])⟩

/-- C1 (code bug evidence): with a transformation that raises in both phases,
the batch calls of `SummarizationAgent` and `QualityScoreAgent` do not return
an empty list: the phase-2 retry results are appended wholesale, so the still
unenriched documents (summary and quality score absent) are returned instead
of being dropped. -/
theorem batch_always_fail_not_dropped :
    summarize_batch false (fun _ => .exn) (fun _ => .exn) [doc_plain] =
      [doc_plain] ∧
    doc_plain.summary = none ∧
    get_quality_score_batch false (fun _ => .exn) (fun _ => .exn) [doc_plain] =
      [doc_plain] ∧
    doc_plain.content_quality_score = none := by
  refine ⟨?_, rfl, ?_, rfl⟩ <;> rfl

/-! ## Helper lemmas about the Python slicing primitives -/

theorem pyTrunc_of_nonneg {q : ℚ} (h : 0 ≤ q) : pyTrunc q = Int.floor q := by
  unfold pyTrunc
  rw [if_neg (not_lt.2 h)]

theorem pyTrunc_nonpos {q : ℚ} (h : q ≤ 0) : pyTrunc q ≤ 0 := by
  unfold pyTrunc
  split
  · simp only [neg_nonpos]
    exact Int.floor_nonneg.2 (by linarith)
  · calc Int.floor q ≤ Int.floor (0 : ℚ) := Int.floor_mono h
    _ = 0 := by simp

theorem pyIdx_zero (n : ℕ) : pyIdx n 0 = 0 := by
  simp [pyIdx]

theorem pyIdx_length (n : ℕ) : pyIdx n (n : ℤ) = n := by
  unfold pyIdx
  rw [if_neg (by omega : ¬((n : ℤ) < 0))]
  simp

theorem pyIdx_of_nonneg {n : ℕ} {i : ℤ} (h0 : 0 ≤ i) (hn : i ≤ (n : ℤ)) :
    pyIdx n i = i.toNat := by
  unfold pyIdx
  rw [if_neg (not_lt.2 h0)]
  exact min_eq_left (by omega)

theorem pySlice_partition {α : Type} (xs : List α) (a b : ℤ)
    (h0 : 0 ≤ a) (hab : a ≤ b) (hbn : b ≤ (xs.length : ℤ)) :
    pySlice xs 0 a ++ pySlice xs a b ++ pySlice xs b (xs.length : ℤ) = xs := by
  have hb0 : 0 ≤ b := le_trans h0 hab
  have han : a ≤ (xs.length : ℤ) := le_trans hab hbn
  unfold pySlice
  rw [pyIdx_zero, pyIdx_of_nonneg h0 han, pyIdx_of_nonneg hb0 hbn, pyIdx_length,
    List.drop_zero, List.take_length]
  have hAB : a.toNat ≤ b.toNat := Int.toNat_le_toNat hab
  rw [show xs.take a.toNat = (xs.take b.toNat).take a.toNat by
    rw [List.take_take, min_eq_left hAB]]
  rw [List.take_append_drop, List.take_append_drop]

theorem floor_add_floor_le (x y : ℚ) :
    Int.floor x + Int.floor y ≤ Int.floor (x + y) := by
  refine Int.le_floor.2 ?_
  push_cast
  exact add_le_add (Int.floor_le x) (Int.floor_le y)

/-- Unfolding lemma for `split_slices`. -/
theorem split_slices_def (L : List InstructDatasetSample) (v t : ℚ) :
    split_slices L v t =
      (pySlice L 0 (pyTrunc ((L.length : ℚ) * (1 - v - t))),
       pySlice L (pyTrunc ((L.length : ℚ) * (1 - v - t)))
         (pyTrunc ((L.length : ℚ) * (1 - t))),
       pySlice L (pyTrunc ((L.length : ℚ) * (1 - t))) (L.length : ℤ)) := rfl

/-- Unfolding lemma for the first component of `from_samples`. -/
theorem from_samples_fst {G : Type} (seedFn : ℤ → G)
    (shuffleFn : G → List InstructDatasetSample → List InstructDatasetSample × G)
    (g : G) (samples : List InstructDatasetSample) (v t : ℚ) (seed : Option ℤ) :
    (from_samples seedFn shuffleFn g samples v t seed).1 =
      (if (split_slices ((shuffleFn (init_generator seedFn g seed) samples).1) v t).1 ≠ [] ∧
          (split_slices ((shuffleFn (init_generator seedFn g seed) samples).1) v t).2.1 ≠ [] ∧
          (split_slices ((shuffleFn (init_generator seedFn g seed) samples).1) v t).2.2 ≠ [] then
        some
          { train := (split_slices ((shuffleFn (init_generator seedFn g seed) samples).1) v t).1
            validation := (split_slices ((shuffleFn (init_generator seedFn g seed) samples).1) v t).2.1
            test := (split_slices ((shuffleFn (init_generator seedFn g seed) samples).1) v t).2.2
            val_split_ratio := v
            test_split_ratio := t
            seed := seed }
      else none) := rfl

/-- When both ratios are nonnegative and sum below 1, the three slices of
`split_slices` concatenate back to the sliced list. -/
theorem split_slices_append (L : List InstructDatasetSample) (v t : ℚ)
    (hv0 : 0 ≤ v) (ht0 : 0 ≤ t) (hsum : v + t < 1) :
    (split_slices L v t).1 ++ (split_slices L v t).2.1 ++
      (split_slices L v t).2.2 = L := by
  rw [split_slices_def]
  set n := L.length with hn
  have hq1 : (0 : ℚ) ≤ (n : ℚ) * (1 - v - t) :=
    mul_nonneg (Nat.cast_nonneg n) (by linarith)
  have hq2 : (0 : ℚ) ≤ (n : ℚ) * (1 - t) :=
    mul_nonneg (Nat.cast_nonneg n) (by linarith)
  rw [pyTrunc_of_nonneg hq1, pyTrunc_of_nonneg hq2]
  apply pySlice_partition
  · exact Int.floor_nonneg.2 hq1
  · exact Int.floor_mono
      (mul_le_mul_of_nonneg_left (by linarith) (Nat.cast_nonneg n))
  · calc Int.floor ((n : ℚ) * (1 - t)) ≤ Int.floor ((n : ℚ)) :=
      Int.floor_mono (by nlinarith [Nat.cast_nonneg (α := ℚ) n])
    _ = (n : ℤ) := Int.floor_natCast n

/-- Evaluation of `from_samples` on the ten concrete samples with ratios 1/5,
1/5, seed 42 and the identity shuffle. -/
theorem from_samples_ten_eq :
    (from_samples id_seed id_shuffle 0 samples_ten (1/5) (1/5) (some 42)).1 =
      some ds_ten := by
  rw [from_samples_fst]
  simp only [id_shuffle, init_generator, id_seed]
  have hsl : split_slices samples_ten (1/5) (1/5) =
      ((List.range 6).map sample_of, [sample_of 6, sample_of 7],
        [sample_of 8, sample_of 9]) := by
    rw [split_slices_def]
    rw [show samples_ten.length = 10 from rfl]
    rw [show pyTrunc (((10 : ℕ) : ℚ) * (1 - 1/5 - 1/5)) = 6 by
        rw [pyTrunc_of_nonneg (by push_cast; norm_num)]
        push_cast
        norm_num]
    rw [show pyTrunc (((10 : ℕ) : ℚ) * (1 - 1/5)) = 8 by
        rw [pyTrunc_of_nonneg (by push_cast; norm_num)]
        push_cast
        norm_num]
    rfl
  rw [hsl]
  rw [if_pos (by refine ⟨?_, ?_, ?_⟩ <;> decide)]
  rfl

/-- C3: with a fixed non-null seed, `InstructDataset.from_samples` is
deterministic: two calls with the same ordered sample list, the same ratios
and the same seed — regardless of the ambient PRNG state each call starts
from — produce identical train, validation and test lists. -/
theorem from_samples_deterministic {G : Type} (seedFn : ℤ → G)
    (shuffleFn : G → List InstructDatasetSample → List InstructDatasetSample × G)
    (g g' : G) (samples : List InstructDatasetSample) (v t : ℚ) (s : ℤ)
    (ds ds' : InstructDataset)
    (h : (from_samples seedFn shuffleFn g samples v t (some s)).1 = some ds)
    (h' : (from_samples seedFn shuffleFn g' samples v t (some s)).1 = some ds') :
    ds.train = ds'.train ∧ ds.validation = ds'.validation ∧
      ds.test = ds'.test := by
  have he : (from_samples seedFn shuffleFn g samples v t (some s)).1 =
      (from_samples seedFn shuffleFn g' samples v t (some s)).1 := rfl
  rw [h, h'] at he
  cases he
  exact ⟨rfl, rfl, rfl⟩

/-- Witness for C3: two calls on `samples_ten` from distinct ambient states 0
and 999 with seed 42 both yield `ds_ten`. -/
theorem from_samples_deterministic_witness :
    ds_ten.train = ds_ten.train ∧ ds_ten.validation = ds_ten.validation ∧
      ds_ten.test = ds_ten.test :=
  from_samples_deterministic id_seed id_shuffle 0 999 samples_ten (1/5) (1/5)
    42 ds_ten ds_ten from_samples_ten_eq from_samples_ten_eq

/-- C4: for ratios in [0,1] summing below 1, the three splits are cumulative
cuts of the shuffled list, so `train ++ validation ++ test` is exactly the
shuffled list: every sample lands in exactly one split, with no gap and no
overlap. -/
theorem from_samples_partition {G : Type} (seedFn : ℤ → G)
    (shuffleFn : G → List InstructDatasetSample → List InstructDatasetSample × G)
    (g : G) (samples : List InstructDatasetSample) (v t : ℚ) (seed : Option ℤ)
    (ds : InstructDataset)
    (hv0 : 0 ≤ v) (hv1 : v ≤ 1) (ht0 : 0 ≤ t) (ht1 : t ≤ 1) (hsum : v + t < 1)
    (h : (from_samples seedFn shuffleFn g samples v t seed).1 = some ds) :
    ds.train ++ ds.validation ++ ds.test =
      (shuffleFn (init_generator seedFn g seed) samples).1 := by
  rw [from_samples_fst] at h
  split at h
  · injection h with h2
    subst h2
    exact split_slices_append _ v t hv0 ht0 hsum
  · exact absurd h (by simp)

/-- Witness for C4: on `samples_ten` with ratios 1/5, 1/5 the three splits
concatenate back to the (identity-)shuffled input list. -/
theorem from_samples_partition_witness :
    ds_ten.train ++ ds_ten.validation ++ ds_ten.test = samples_ten :=
  from_samples_partition id_seed id_shuffle 0 samples_ten (1/5) (1/5)
    (some 42) ds_ten (by norm_num) (by norm_num) (by norm_num) (by norm_num)
    (by norm_num) from_samples_ten_eq


theorem split_slices_empty_of_ratio_ge_one (L : List InstructDatasetSample)
    (v t : ℚ) (hv1 : v ≤ 1) (ht0 : 0 ≤ t) (ht1 : t ≤ 1) (hsum : 1 ≤ v + t) :
    (split_slices L v t).1 = [] ∨ (split_slices L v t).2.1 = [] := by
  rw [split_slices_def]
  set n := L.length with hn
  have hq1 : (n : ℚ) * (1 - v - t) ≤ 0 := by
    have h0 : (1 : ℚ) - v - t ≤ 0 := by linarith
    calc (n : ℚ) * (1 - v - t) ≤ (n : ℚ) * 0 :=
      mul_le_mul_of_nonneg_left h0 (Nat.cast_nonneg n)
    _ = 0 := mul_zero _
  have hq2 : (0 : ℚ) ≤ (n : ℚ) * (1 - t) :=
    mul_nonneg (Nat.cast_nonneg n) (by linarith)
  have ha : pyTrunc ((n : ℚ) * (1 - v - t)) ≤ 0 := pyTrunc_nonpos hq1
  set a := pyTrunc ((n : ℚ) * (1 - v - t)) with hadef
  set b := pyTrunc ((n : ℚ) * (1 - t)) with hbdef
  have hb_eq : b = Int.floor ((n : ℚ) * (1 - t)) := pyTrunc_of_nonneg hq2
  have hb0 : 0 ≤ b := hb_eq ▸ Int.floor_nonneg.2 hq2
  rcases eq_or_lt_of_le ha with haz | haneg
  · left
    show (L.take (pyIdx n a)).drop (pyIdx n 0) = []
    rw [haz, pyIdx_zero, List.take_zero, List.drop_zero]
  · right
    show (L.take (pyIdx n b)).drop (pyIdx n a) = []
    have hq1neg : (n : ℚ) * (1 - v - t) < 0 := by
      by_contra hq
      push_neg at hq
      rw [hadef, pyTrunc_of_nonneg hq] at haneg
      exact absurd haneg (not_lt.2 (Int.floor_nonneg.2 hq))
    have ha_eq : a = -(Int.floor (-((n : ℚ) * (1 - v - t)))) := by
      rw [hadef]
      unfold pyTrunc
      rw [if_pos hq1neg]
    have hneg_eq : -((n : ℚ) * (1 - v - t)) = (n : ℚ) * (v + t - 1) := by ring
    have hfl1 : Int.floor (-((n : ℚ) * (1 - v - t))) ≤ (n : ℤ) := by
      rw [hneg_eq]
      calc Int.floor ((n : ℚ) * (v + t - 1))
          ≤ Int.floor ((n : ℚ) * 1) :=
            Int.floor_mono
              (mul_le_mul_of_nonneg_left (by linarith) (Nat.cast_nonneg n))
      _ = (n : ℤ) := by rw [mul_one, Int.floor_natCast]
    have hna : 0 ≤ (n : ℤ) + a := by
      rw [ha_eq]
      omega
    have key : b ≤ (n : ℤ) + a := by
      rw [hb_eq, ha_eq]
      have h1 := floor_add_floor_le ((n : ℚ) * (1 - t)) (-((n : ℚ) * (1 - v - t)))
      have h2 : (n : ℚ) * (1 - t) + -((n : ℚ) * (1 - v - t)) = (n : ℚ) * v := by
        ring
      rw [h2] at h1
      have h3 : Int.floor ((n : ℚ) * v) ≤ (n : ℤ) := by
        calc Int.floor ((n : ℚ) * v)
            ≤ Int.floor ((n : ℚ) * 1) :=
              Int.floor_mono
                (mul_le_mul_of_nonneg_left (by linarith) (Nat.cast_nonneg n))
        _ = (n : ℤ) := by rw [mul_one, Int.floor_natCast]
      omega
    have hpa : pyIdx n a = ((n : ℤ) + a).toNat := by
      unfold pyIdx
      rw [if_pos haneg]
      exact min_eq_left (by omega)
    apply List.drop_eq_nil_of_le
    rw [hpa]
    calc (L.take (pyIdx n b)).length ≤ pyIdx n b := by
          rw [List.length_take]
          exact min_le_left _ _
    _ ≤ ((n : ℤ) + a).toNat := by
          unfold pyIdx
          rw [if_neg (not_lt.2 hb0)]
          exact le_trans (min_le_left _ _) (Int.toNat_le_toNat key)

/-- C5: `from_samples` fails whenever the two ratios (each in [0,1]) sum to at
least 1; it fails on 2 samples with ratios 0.1 and 0.1 (for any
length-preserving shuffle); and it succeeds exactly when all three resulting
splits are non-empty. -/
theorem from_samples_failure_spec :
    (∀ (G : Type) (seedFn : ℤ → G)
      (shuffleFn : G → List InstructDatasetSample → List InstructDatasetSample × G)
      (g : G) (samples : List InstructDatasetSample) (v t : ℚ) (seed : Option ℤ),
      0 ≤ v → v ≤ 1 → 0 ≤ t → t ≤ 1 → 1 ≤ v + t →
      (from_samples seedFn shuffleFn g samples v t seed).1 = none) ∧
    (∀ (G : Type) (seedFn : ℤ → G)
      (shuffleFn : G → List InstructDatasetSample → List InstructDatasetSample × G)
      (g : G) (s1 s2 : InstructDatasetSample),
      (∀ (g' : G) (xs : List InstructDatasetSample),
        ((shuffleFn g' xs).1).length = xs.length) →
      (from_samples seedFn shuffleFn g [s1, s2] (1/10) (1/10) (some 42)).1 = none) ∧
    (∀ (G : Type) (seedFn : ℤ → G)
      (shuffleFn : G → List InstructDatasetSample → List InstructDatasetSample × G)
      (g : G) (samples : List InstructDatasetSample) (v t : ℚ) (seed : Option ℤ),
      ((from_samples seedFn shuffleFn g samples v t seed).1).isSome ↔
        ((split_slices ((shuffleFn (init_generator seedFn g seed) samples).1) v t).1 ≠ [] ∧
         (split_slices ((shuffleFn (init_generator seedFn g seed) samples).1) v t).2.1 ≠ [] ∧
         (split_slices ((shuffleFn (init_generator seedFn g seed) samples).1) v t).2.2 ≠ [])) := by
  refine ⟨?_, ?_, ?_⟩
  · intro G seedFn shuffleFn g samples v t seed hv0 hv1 ht0 ht1 hsum
    rw [from_samples_fst]
    rcases split_slices_empty_of_ratio_ge_one
        ((shuffleFn (init_generator seedFn g seed) samples).1) v t hv1 ht0 ht1
        hsum with h | h
    · exact if_neg (fun hc => hc.1 h)
    · exact if_neg (fun hc => hc.2.1 h)
  · intro G seedFn shuffleFn g s1 s2 hlen
    rw [from_samples_fst]
    have hval : (split_slices
        ((shuffleFn (init_generator seedFn g (some 42)) [s1, s2]).1)
        (1/10) (1/10)).2.1 = [] := by
      set L := (shuffleFn (init_generator seedFn g (some 42)) [s1, s2]).1 with hL
      rw [split_slices_def, hlen]
      rw [show pyTrunc (((([s1, s2] : List InstructDatasetSample).length : ℕ) : ℚ) * (1 - 1/10 - 1/10)) = 1 by
        rw [pyTrunc_of_nonneg (by norm_num)]
        norm_num]
      rw [show pyTrunc (((([s1, s2] : List InstructDatasetSample).length : ℕ) : ℚ) * (1 - 1/10)) = 1 by
        rw [pyTrunc_of_nonneg (by norm_num)]
        norm_num]
      show (L.take (pyIdx L.length 1)).drop (pyIdx L.length 1) = []
      apply List.drop_eq_nil_of_le
      rw [List.length_take]
      exact min_le_left _ _
    exact if_neg (fun hc => hc.2.1 hval)
  · intro G seedFn shuffleFn g samples v t seed
    rw [from_samples_fst]
    split
    · next hc => exact iff_of_true (by simp) hc
    · next hc => exact iff_of_false (by simp) hc

/-- Witness for C5: concrete failing calls — ten samples with ratios 0.6/0.6,
and two samples with ratios 0.1/0.1 under the identity shuffle. -/
theorem from_samples_failure_spec_witness :
    (from_samples id_seed id_shuffle 0 samples_ten (3/5) (3/5) none).1 = none ∧
    (from_samples id_seed id_shuffle 5 [sample_of 0, sample_of 1] (1/10) (1/10)
      (some 42)).1 = none :=
  ⟨from_samples_failure_spec.1 ℤ id_seed id_shuffle 0 samples_ten (3/5) (3/5)
      none (by norm_num) (by norm_num) (by norm_num) (by norm_num) (by norm_num),
   from_samples_failure_spec.2.1 ℤ id_seed id_shuffle 5 (sample_of 0)
      (sample_of 1) (fun _ _ => rfl)⟩

/-- C6 counterexample: a document whose content length equals the configured
minimum (50) with an unset quality score is dropped by the pre-generation
filter, although the claim says a document with content length greater than or
equal to the minimum and an unset score is retained. -/
theorem pre_filter_boundary_counterexample :
    doc_len50.content.length = 50 ∧
    doc_len50.content_quality_score = none ∧
    filter_documents (pre_generation_filters 50 (3/10)) [doc_len50] = [] := by
  refine ⟨rfl, rfl, rfl⟩

/-- C6 (amended): the pre-generation filter retains a document if and only if
its content length is strictly greater than `min_document_length` and its
quality score is unset or at least `min_quality_score`. -/
theorem pre_filter_spec (min_document_length : ℕ) (min_quality_score : ℚ)
    (documents : List Document) (d : Document) :
    d ∈ filter_documents
        (pre_generation_filters min_document_length min_quality_score)
        documents ↔
      d ∈ documents ∧ d.content.length > min_document_length ∧
        (d.content_quality_score = none ∨
          ∃ s, d.content_quality_score = some s ∧ min_quality_score ≤ s) := by
  simp only [filter_documents, pre_generation_filters, List.foldl_cons,
    List.foldl_nil]
  rw [List.mem_filter, List.mem_filter]
  cases hs : d.content_quality_score with
  | none => simp [hs, and_assoc]
  | some s => simp [hs, and_assoc]

/-- A successful `__crawl_url` call produces a document whose
`parent_metadata` is the originating page's metadata. -/
theorem crawl_url_parent {fetch : String → Option CrawlResult} {i : String}
    {page : Document} {url : String} {d : Document}
    (h : crawl_url fetch i page url = some d) :
    d.parent_metadata = some page.metadata := by
  unfold crawl_url at h
  cases hf : fetch url with
  | none => rw [hf] at h; exact absurd h (by simp)
  | some r =>
    rw [hf] at h
    dsimp only at h
    cases hr : r.success with
    | false => rw [hr] at h; simp at h
    | true =>
      rw [hr] at h
      cases hm : r.markdown with
      | none => rw [hm] at h; simp at h
      | some md =>
        rw [hm] at h
        rw [if_neg (by simp)] at h
        injection h with h2
        rw [← h2]

/-- A call of `__crawl_url` yields a document exactly when the fetch returns a truthy,
successful result with renderable markdown. -/
theorem crawl_url_isSome_iff (fetch : String → Option CrawlResult) (i : String)
    (page : Document) (url : String) :
    (crawl_url fetch i page url).isSome ↔
      ∃ r md, fetch url = some r ∧ r.success = true ∧ r.markdown = some md := by
  unfold crawl_url
  cases hf : fetch url with
  | none => simp
  | some r =>
    dsimp only
    cases hr : r.success with
    | false => simp [hr]
    | true =>
      cases hm : r.markdown with
      | none => simp [hr, hm]
      | some md => simp [hr, hm]

/-- Dropping the `none` entries of a list keeps as many elements as there are
`some` entries. -/
theorem reduceOption_length_eq {α : Type} (l : List (Option α)) :
    l.reduceOption.length = (l.filter Option.isSome).length := by
  induction l with
  | nil => rfl
  | cons a l ih =>
    cases a with
    | none => simpa using ih
    | some x => simpa using ih

/-- A call of `__crawl_batch` on a single page is one `__crawl_url` task per child-URL
occurrence, in order, with falsy results dropped. -/
theorem crawl_batch_singleton (fetch : String → Option CrawlResult)
    (ids : ℕ → String) (page : Document) :
    crawl_batch fetch ids [page] =
      (page.child_urls.enum.map
        (fun pr => crawl_url fetch (ids pr.1) page pr.2)).reduceOption := by
  unfold crawl_batch
  simp only [List.flatMap_cons, List.flatMap_nil, List.append_nil]
  rw [List.enum_map, List.map_map]
  rfl

/-- Every document returned by `__crawl_batch` carries the metadata of one of
the input pages as its `parent_metadata`. -/
theorem crawl_batch_mem_parent {fetch : String → Option CrawlResult}
    {ids : ℕ → String} {pages : List Document} {d : Document}
    (h : d ∈ crawl_batch fetch ids pages) :
    ∃ p, p ∈ pages ∧ d.parent_metadata = some p.metadata := by
  unfold crawl_batch at h
  rw [List.reduceOption, List.mem_filterMap] at h
  obtain ⟨o, ho, hid⟩ := h
  rw [List.mem_map] at ho
  obtain ⟨job, hjob, hF⟩ := ho
  have hmem : job.2 ∈ pages.flatMap
      (fun page => page.child_urls.map (fun url => (page, url))) :=
    List.get?_mem (List.mem_enum_iff_get?.1 hjob)
  rw [List.mem_flatMap] at hmem
  obtain ⟨p, hp, hpu⟩ := hmem
  rw [List.mem_map] at hpu
  obtain ⟨url, hurl, hpu2⟩ := hpu
  refine ⟨p, hp, ?_⟩
  have ho2 : crawl_url fetch (ids job.1) job.2.1 job.2.2 = some d := by
    rw [hF]
    exact hid
  have hpar := crawl_url_parent ho2
  rw [← hpu2] at hpar
  exact hpar

/-- C7 counterexample: a page listing the same child URL twice triggers two
fetches (and two new documents when the fetch succeeds), not one fetch per
distinct URL as claimed. -/
theorem crawl_distinct_fetch_counterexample :
    page_dup.child_urls.dedup.length = 1 ∧
    (crawl_fetch_log [page_dup]).length = 2 ∧
    (crawl_batch (fun _ => some crawl_ok) hex_ids [page_dup]).length = 2 := by
  refine ⟨by decide, rfl, rfl⟩

/-- C7 (amended): the crawler issues exactly one fetch per child-URL
occurrence (duplicates fetched repeatedly); every returned document's
`parent_metadata` equals the originating document's metadata; a fetch yields a
document exactly when it returns a successful result with renderable content;
and the number of new documents equals the number of successful fetches among
the child-URL occurrences (so 3 child URLs with 1 failure yield exactly 2 new
documents). -/
theorem crawler_spec :
    (∀ page : Document, crawl_fetch_log [page] = page.child_urls) ∧
    (∀ (fetch : String → Option CrawlResult) (ids : ℕ → String)
      (pages : List Document) (d : Document), d ∈ crawl_batch fetch ids pages →
      ∃ p, p ∈ pages ∧ d.parent_metadata = some p.metadata) ∧
    (∀ (fetch : String → Option CrawlResult) (i : String) (page : Document)
      (url : String),
      (crawl_url fetch i page url).isSome ↔
        ∃ r md, fetch url = some r ∧ r.success = true ∧ r.markdown = some md) ∧
    (∀ (fetch : String → Option CrawlResult) (ids : ℕ → String)
      (page : Document),
      (crawl_batch fetch ids [page]).length =
        (page.child_urls.enum.filter
          (fun pr => (crawl_url fetch (ids pr.1) page pr.2).isSome)).length) := by
  refine ⟨fun page => by simp [crawl_fetch_log],
    fun fetch ids pages d h => crawl_batch_mem_parent h,
    crawl_url_isSome_iff, ?_⟩
  intro fetch ids page
  rw [crawl_batch_singleton, reduceOption_length_eq, List.filter_map,
    List.length_map]
  rfl

/-- Witness for C7: a page with child URLs u1, u2, u3 whose u2 fetch fails
yields exactly 2 new documents, and the u1 document's parent metadata is the
page's metadata. -/
theorem crawler_spec_witness :
    (crawl_batch fetch_three hex_ids [page_three]).length = 2 ∧
    (∃ p, p ∈ [page_three] ∧ crawled_u1.parent_metadata = some p.metadata) :=
  ⟨(crawler_spec.2.2.2 fetch_three hex_ids page_three).trans (by decide),
   crawler_spec.2.1 fetch_three hex_ids [page_three] crawled_u1 (by decide)⟩

/-- Folding the set-insertion step over a document list keeps ids unique and
preserves exactly the set of ids, for any id-unique accumulator. -/
theorem dedup_documents_aux (docs : List Document) :
    ∀ acc : List Document, (acc.map (fun d => d.id)).Nodup →
      ((docs.foldl
        (fun acc d =>
          if acc.any (fun x => document_eq x d) then acc else acc ++ [d])
        acc).map (fun d => d.id)).Nodup ∧
      (∀ i : String,
        i ∈ (docs.foldl
          (fun acc d =>
            if acc.any (fun x => document_eq x d) then acc else acc ++ [d])
          acc).map (fun d => d.id) ↔
        i ∈ acc.map (fun d => d.id) ∨ i ∈ docs.map (fun d => d.id)) := by
  induction docs with
  | nil =>
    intro acc hacc
    exact ⟨hacc, fun i => by simp⟩
  | cons d docs ih =>
    intro acc hacc
    rw [List.foldl_cons]
    by_cases hmem : acc.any (fun x => document_eq x d) = true
    · rw [if_pos hmem]
      have hd : d.id ∈ acc.map (fun d => d.id) := by
        rw [List.any_eq_true] at hmem
        obtain ⟨x, hx, hxd⟩ := hmem
        rw [List.mem_map]
        refine ⟨x, hx, ?_⟩
        simpa [document_eq] using hxd
      obtain ⟨h1, h2⟩ := ih acc hacc
      refine ⟨h1, fun i => ?_⟩
      rw [h2 i]
      simp only [List.map_cons, List.mem_cons]
      constructor
      · rintro (h | h)
        · exact Or.inl h
        · exact Or.inr (Or.inr h)
      · rintro (h | h | h)
        · exact Or.inl h
        · exact Or.inl (h ▸ hd)
        · exact Or.inr h
    · rw [if_neg hmem]
      have hd : d.id ∉ acc.map (fun d => d.id) := by
        intro hcon
        apply hmem
        rw [List.mem_map] at hcon
        obtain ⟨x, hx, hxd⟩ := hcon
        rw [List.any_eq_true]
        exact ⟨x, hx, by simp [document_eq, hxd]⟩
      have hacc2 : ((acc ++ [d]).map (fun d => d.id)).Nodup := by
        rw [List.map_append]
        rw [List.nodup_append]
        exact ⟨hacc, by simp, by simpa using hd⟩
      obtain ⟨h1, h2⟩ := ih (acc ++ [d]) hacc2
      refine ⟨h1, fun i => ?_⟩
      rw [h2 i]
      simp only [List.map_append, List.mem_append, List.map_cons,
        List.mem_cons, List.map_nil, List.mem_singleton]
      tauto

/-- C8: `Document.__eq__` compares only ids — two documents are equal exactly
when their ids are equal, regardless of every other field — and therefore the
set-deduplication of original plus crawled documents in the `crawl` step keeps
exactly one document per distinct id: the resulting ids are pairwise distinct
and are exactly the ids of the unioned input. -/
theorem document_eq_dedup_spec :
    (∀ a b : Document, document_eq a b = true ↔ a.id = b.id) ∧
    (∀ documents child_pages : List Document,
      ((crawl_union documents child_pages).map (fun d => d.id)).Nodup ∧
      (∀ i : String,
        i ∈ (crawl_union documents child_pages).map (fun d => d.id) ↔
          i ∈ (documents ++ child_pages).map (fun d => d.id))) := by
  constructor
  · intro a b
    simp [document_eq]
  · intro documents child_pages
    have h := dedup_documents_aux (documents ++ child_pages) [] (by simp)
    unfold crawl_union dedup_documents
    refine ⟨h.1, fun i => ?_⟩
    rw [h.2 i]
    simp

/-- A fold that appends `g i` for each element is the flat map of `g`. -/
theorem foldl_append_eq_flatMap {α β : Type} (g : α → List β) (l : List α) :
    ∀ acc : List β, l.foldl (fun a i => a ++ g i) acc = acc ++ l.flatMap g := by
  induction l with
  | nil => intro acc; simp
  | cons x l ih =>
    intro acc
    rw [List.foldl_cons, ih, List.flatMap_cons, List.append_assoc]

/-- In mock mode the summarization batch returns every document, each with
the fixed placeholder summary. -/
theorem summarize_batch_mock (o1 o2 : Document → SumOutcome)
    (documents : List Document) :
    summarize_batch true o1 o2 documents =
      documents.map (fun d => d.add_summary ("This is a mock summary")) := by
  unfold summarize_batch
  have hmap : documents.map (fun d => summarize true (o1 d) d) =
      documents.map (fun d => d.add_summary ("This is a mock summary")) := by
    simp [summarize]
  have hp1 : ((fun d : Document => d.summary.isSome) ∘
      (fun d : Document => d.add_summary ("This is a mock summary"))) =
      fun _ => true := by
    funext d
    simp [Document.add_summary]
  have hp2 : ((fun d : Document => d.summary.isNone) ∘
      (fun d : Document => d.add_summary ("This is a mock summary"))) =
      fun _ => false := by
    funext d
    simp [Document.add_summary]
  simp only [hmap, List.filter_map, hp1, hp2, List.filter_true,
    List.filter_false, List.map_nil, List.isEmpty_nil, if_true]

/-- Summing a constant over `range n` gives `n * N`. -/
theorem sum_map_const_range (n N : ℕ) :
    ((List.range n).map (fun _ => N)).sum = n * N := by
  induction n with
  | zero => simp
  | succ n ih =>
    rw [List.range_succ, List.map_append, List.sum_append]
    simp [ih, Nat.succ_mul]

/-- C9: the augmented summarization loop runs exactly `loops` passes, pass `i`
calling the agent at temperature `i * 0.5 / loops` on the (deep copy of the)
filtered documents and accumulating the returned documents that carry a
summary; with a mock (always succeeding) summarizer the accumulated list has
exactly `N * loops` documents for `N` input documents. -/
theorem augmented_loop_spec :
    (∀ (agent_batch : ℚ → List Document → List Document)
      (documents : List Document) (loops : ℕ),
      augmented_summarization_loop agent_batch documents loops =
        (List.range loops).flatMap (fun i =>
          (agent_batch ((i : ℚ) * (5/10) / (loops : ℚ)) documents).filter
            (fun d => d.summary.isSome))) ∧
    (∀ (o1 o2 : Document → SumOutcome) (documents : List Document) (loops : ℕ),
      (augmented_summarization_loop
        (fun _ ds => summarize_batch true o1 o2 ds) documents loops).length =
        documents.length * loops) := by
  have hflat : ∀ (agent_batch : ℚ → List Document → List Document)
      (documents : List Document) (loops : ℕ),
      augmented_summarization_loop agent_batch documents loops =
        (List.range loops).flatMap (fun i =>
          (agent_batch ((i : ℚ) * (5/10) / (loops : ℚ)) documents).filter
            (fun d => d.summary.isSome)) := by
    intro agent_batch documents loops
    unfold augmented_summarization_loop
    rw [foldl_append_eq_flatMap
      (fun i : ℕ =>
        (agent_batch ((i : ℚ) * (5/10) / (loops : ℚ)) documents).filter
          (fun d => d.summary.isSome))
      (List.range loops) []]
    rw [List.nil_append]
  refine ⟨hflat, ?_⟩
  intro o1 o2 documents loops
  rw [hflat]
  simp only [summarize_batch_mock]
  rw [List.length_flatMap]
  have hp1 : ((fun d : Document => d.summary.isSome) ∘
      (fun d : Document => d.add_summary ("This is a mock summary"))) =
      fun _ => true := by
    funext d
    simp [Document.add_summary]
  simp only [List.filter_map, hp1, List.filter_true]
  have hlen : (List.length ∘ fun _ : ℕ =>
      List.map (fun d => d.add_summary ("This is a mock summary")) documents) =
      fun _ : ℕ => documents.length := by
    funext i
    simp
  rw [hlen]
  exact (sum_map_const_range loops documents.length).trans (Nat.mul_comm _ _)

/-- C10: every enrichment writes only its own output field and keeps the
document's identity: `add_summary` and `__summarize` (mock or real) change
only `summary`; `add_quality_score`, `__get_quality_score` (mock or real) and
the heuristic `__score_document` change only `content_quality_score`; all
other fields — id, metadata, parent metadata, content, child urls and the
respective other annotation — are unchanged. -/
theorem enrichment_frame_spec :
    (∀ (document : Document) (s : String),
      (document.add_summary s).id = document.id ∧
      (document.add_summary s).metadata = document.metadata ∧
      (document.add_summary s).parent_metadata = document.parent_metadata ∧
      (document.add_summary s).content = document.content ∧
      (document.add_summary s).content_quality_score =
        document.content_quality_score ∧
      (document.add_summary s).child_urls = document.child_urls ∧
      (document.add_summary s).summary = some s) ∧
    (∀ (document : Document) (q : ℚ),
      (document.add_quality_score q).id = document.id ∧
      (document.add_quality_score q).metadata = document.metadata ∧
      (document.add_quality_score q).parent_metadata =
        document.parent_metadata ∧
      (document.add_quality_score q).content = document.content ∧
      (document.add_quality_score q).summary = document.summary ∧
      (document.add_quality_score q).child_urls = document.child_urls ∧
      (document.add_quality_score q).content_quality_score = some q) ∧
    (∀ (mock : Bool) (o : SumOutcome) (document : Document),
      (summarize mock o document).id = document.id ∧
      (summarize mock o document).metadata = document.metadata ∧
      (summarize mock o document).parent_metadata =
        document.parent_metadata ∧
      (summarize mock o document).content = document.content ∧
      (summarize mock o document).content_quality_score =
        document.content_quality_score ∧
      (summarize mock o document).child_urls = document.child_urls) ∧
    (∀ (mock : Bool) (o : ScoreOutcome) (document : Document),
      (get_quality_score mock o document).id = document.id ∧
      (get_quality_score mock o document).metadata = document.metadata ∧
      (get_quality_score mock o document).parent_metadata =
        document.parent_metadata ∧
      (get_quality_score mock o document).content = document.content ∧
      (get_quality_score mock o document).summary = document.summary ∧
      (get_quality_score mock o document).child_urls =
        document.child_urls) ∧
    (∀ document : Document,
      (score_document document).id = document.id ∧
      (score_document document).metadata = document.metadata ∧
      (score_document document).parent_metadata = document.parent_metadata ∧
      (score_document document).content = document.content ∧
      (score_document document).summary = document.summary ∧
      (score_document document).child_urls = document.child_urls) := by
  refine ⟨fun d s => ⟨rfl, rfl, rfl, rfl, rfl, rfl, rfl⟩,
    fun d q => ⟨rfl, rfl, rfl, rfl, rfl, rfl, rfl⟩, ?_, ?_, ?_⟩
  · intro mock o document
    cases mock <;> cases o <;>
      simp [summarize, Document.add_summary]
  · intro mock o document
    cases o with
    | exn =>
      cases mock <;> simp [get_quality_score, Document.add_quality_score]
    | noChoices =>
      cases mock <;> simp [get_quality_score, Document.add_quality_score]
    | reply q =>
      cases q <;> cases mock <;>
        simp [get_quality_score, Document.add_quality_score]
  · intro document
    unfold score_document
    dsimp only
    split_ifs <;> simp [Document.add_quality_score]
